import Mathlib

/-!
Shallow embedding of the `replicache` package (src/replicache.go) and proofs
about its push/pull pipelines.

The package wires an HTTP push endpoint to a single-transaction push pipeline
(`handlePush`) that delegates the whole mutation batch to a pluggable
`Handler`.  Domain state touched through the transaction is modelled as a
value of a type parameter `σ` threaded through the handler; the committed
database state and the trace of effectful transaction operations
(begin / handler invocation / commit / rollback) are returned explicitly.
-/

/-- Mirrors Go `sql.IsolationLevel` (the levels of database/sql). -/
inductive Isolation where
  | levelDefault
  | readUncommitted
  | readCommitted
  | writeCommitted
  | repeatableRead
  | snapshot
  | serializable
  | linearizable
deriving DecidableEq, Repr

/-- Mirrors `type Mutation struct` (src/replicache.go:124-132).
`args` is an opaque `json.RawMessage` payload, kept as a string.
`timestamp` is a `float64` DOMHighResTimeStamp in the source; the package
never reads it (comment in the source: "not used by the protocol"), so it is
carried as an opaque numeric code. -/
structure Mutation where
  clientID : String
  id : Int
  name : String
  args : String
  timestamp : Int
deriving DecidableEq, Repr

/-- Mirrors `type ClientInfo struct` (src/replicache.go:117-122). -/
structure ClientInfo where
  auth : String
  clientGroupID : String
  profileID : String
  schemaVersion : String
deriving DecidableEq, Repr

/-- Mirrors `type PushRequest struct` (src/replicache.go:106-110); the
`Tx *sql.Tx` handle is modelled as a numeric transaction identifier. -/
structure PushRequest where
  clientInfo : ClientInfo
  mutations : List Mutation
  tx : Nat
deriving DecidableEq, Repr

/-- Effectful transaction operations performed by a push, in order.
`commitTx` and `rollbackTx` record the operation actually taking effect on
the store (the deferred `tx.Rollback()` after a successful `Commit` is a
no-op in database/sql and is not recorded). -/
inductive Event where
  | beginTx (txId : Nat) (iso : Isolation)
  | handlerCall (txId : Nat) (req : PushRequest)
  | commitTx (txId : Nat)
  | rollbackTx (txId : Nat)
deriving DecidableEq, Repr

/-- The pluggable push capability `Handler.HandlePush(ctx, PushRequest) error`
(src/replicache.go:98-100): it receives the request (whole batch, with the
open transaction handle) and the tentative in-transaction domain state, and
returns the new tentative state or an error message. -/
abbrev Handler (σ : Type) : Type := PushRequest → σ → Except String σ

/-- Failure modes of `handlePush`: `BeginTx` error, error returned by
`Handler.HandlePush`, or `Commit` error. -/
inductive PushError where
  | beginFailed
  | handlerFailed (msg : String)
  | commitFailed
deriving DecidableEq, Repr

/-- Environment of a push: whether `db.BeginTx` and `tx.Commit` fail. -/
structure TxEnv where
  beginFails : Bool
  commitFails : Bool
deriving DecidableEq, Repr

/-- Result of one `handlePush` call: the returned error (`none` = nil error),
the committed database state after the call, and the event trace. -/
structure PushOutcome (σ : Type) where
  result : Option PushError
  db : σ
  events : List Event
deriving DecidableEq, Repr

/-- Embeds `(rep *Replicache) handlePush` (src/replicache.go:50-76):
open one transaction at serializable isolation (`defer tx.Rollback()`),
invoke `rep.handler.HandlePush` once with the full mutation list and the
transaction handle, and commit only if the handler returned nil.  The
source performs no client resolution, no per-mutation ordering checks and
no client-state update (its TODO comments at lines 58-59 and 70). -/
def handlePush {σ : Type} (env : TxEnv) (handler : Handler σ) (info : ClientInfo)
    (mutations : List Mutation) (db : σ) : PushOutcome σ :=
  if env.beginFails then
    { result := some PushError.beginFailed, db := db, events := [] }
  else
    let txId : Nat := 0
    let req : PushRequest := { clientInfo := info, mutations := mutations, tx := txId }
    match handler req db with
    | Except.error msg =>
        { result := some (PushError.handlerFailed msg), db := db,
          events := [Event.beginTx txId Isolation.serializable,
                     Event.handlerCall txId req,
                     Event.rollbackTx txId] }
    | Except.ok db2 =>
        if env.commitFails then
          { result := some PushError.commitFailed, db := db,
            events := [Event.beginTx txId Isolation.serializable,
                       Event.handlerCall txId req,
                       Event.rollbackTx txId] }
        else
          { result := none, db := db2,
            events := [Event.beginTx txId Isolation.serializable,
                       Event.handlerCall txId req,
                       Event.commitTx txId] }

/-- Decoded shape of the push endpoint body (src/replicache.go:24-30). -/
structure PushReq where
  pushVersion : Int
  clientGroupID : String
  mutations : List Mutation
  profileID : String
  schemaVersion : String
deriving DecidableEq, Repr

/-- An HTTP response: status code and body (the endpoint writes no body). -/
structure HttpResponse where
  status : Nat
  body : String
deriving DecidableEq, Repr

/-- Result of one push endpoint invocation. -/
structure EndpointOutcome (σ : Type) where
  resp : HttpResponse
  db : σ
  events : List Event
deriving DecidableEq, Repr

/-- Embeds `(rep *Replicache) PushHandler` (src/replicache.go:22-48):
`decoded = none` models a JSON decode error.  A decode error or a
`pushVersion` other than 1 yields status 500 before `handlePush` is called;
a `handlePush` error yields 500; success yields 200.  No body is written.
The `Authorization` header is copied verbatim into `ClientInfo.Auth`. -/
def pushEndpoint {σ : Type} (env : TxEnv) (handler : Handler σ) (authHeader : String)
    (decoded : Option PushReq) (db : σ) : EndpointOutcome σ :=
  match decoded with
  | none =>
      { resp := { status := 500, body := "" }, db := db, events := [] }
  | some req =>
      if req.pushVersion ≠ 1 then
        { resp := { status := 500, body := "" }, db := db, events := [] }
      else
        let out := handlePush env handler
          { auth := authHeader, clientGroupID := req.clientGroupID,
            profileID := req.profileID, schemaVersion := req.schemaVersion }
          req.mutations db
        match out.result with
        | some _ => { resp := { status := 500, body := "" }, db := out.db, events := out.events }
        | none => { resp := { status := 200, body := "" }, db := out.db, events := out.events }

/-- Tests whether an event is a `BeginTx` call. -/
def isBeginEvent : Event → Bool
  | Event.beginTx _ _ => true
  | _ => false

/-- Tests whether an event is a handler invocation. -/
def isHandlerCallEvent : Event → Bool
  | Event.handlerCall _ _ => true
  | _ => false

/-- Every transaction opened in the trace is at serializable isolation. -/
def beginsSerializable (evs : List Event) : Bool :=
  evs.all fun e =>
    match e with
    | Event.beginTx _ iso => iso == Isolation.serializable
    | _ => true

/-- Every handler invocation in the trace uses transaction handle `txId`,
both as the call's transaction and as the `Tx` field of its `PushRequest`. -/
def handlerUsesTx (txId : Nat) (evs : List Event) : Bool :=
  evs.all fun e =>
    match e with
    | Event.handlerCall t req => t == txId && req.tx == txId
    | _ => true

/-- Every handler invocation in the trace carries `authHeader` unchanged as
the `Auth` field of its request's `ClientInfo`. -/
def authForwarded (authHeader : String) (evs : List Event) : Bool :=
  evs.all fun e =>
    match e with
    | Event.handlerCall _ req => req.clientInfo.auth == authHeader
    | _ => true

/-- A request body the endpoint rejects before reaching `handlePush`:
either it fails to decode or its `pushVersion` is not 1. -/
def decodeRejected : Option PushReq → Bool
  | none => true
  | some req => req.pushVersion != 1

/-- Erases the advisory timestamp of a mutation. -/
def eraseTs (m : Mutation) : Mutation :=
  { m with timestamp := 0 }

/-- Erases the advisory timestamps inside a push request. -/
def erasePushRequest (r : PushRequest) : PushRequest :=
  { r with mutations := r.mutations.map eraseTs }

/-- Erases the advisory timestamps recorded inside a trace event. -/
def eraseEvent : Event → Event
  | Event.handlerCall t req => Event.handlerCall t (erasePushRequest req)
  | e => e

/-- A handler that does not distinguish requests differing only in the
advisory timestamps of their mutations. -/
def tsInsensitive {σ : Type} (handler : Handler σ) : Prop :=
  ∀ r1 r2 st, erasePushRequest r1 = erasePushRequest r2 → handler r1 st = handler r2 st

/-- A transaction environment in which `BeginTx` and `Commit` succeed. -/
def env0 : TxEnv := { beginFails := false, commitFails := false }

/-- A sample request context. -/
def info0 : ClientInfo :=
  { auth := "", clientGroupID := "g1", profileID := "p1", schemaVersion := "s1" }

/-- A handler over `σ = Nat` that accepts every batch without touching state. -/
def acceptHandler : Handler Nat := fun _ st => Except.ok st

/-- A handler over `σ = Nat` that applies every mutation it receives,
counting total applications in the domain state. -/
def countHandler : Handler Nat := fun req st => Except.ok (st + req.mutations.length)

/-- A handler that always fails with a fixed domain error. -/
def errHandler : Handler Nat := fun _ _ => Except.error "boom"

/-- Modelled from the spec: src/replicache.go declares only the `PullHandler`
interface (lines 102-104) and the `PullRequest` struct (lines 112-115); the
pull pipeline itself is not implemented in the repository.  Per §3 and §4.2 of
the spec, a client row carries its owning group and the monotonic
`LastMutationID` counter. -/
structure Client where
  clientID : String
  clientGroupID : String
  lastMutationID : Nat
deriving DecidableEq, Repr

/-- Modelled from the spec: a client-group row (§3) — identity and owning
profile. -/
structure ClientGroup where
  clientGroupID : String
  profileID : String
deriving DecidableEq, Repr

/-- Store visible to a pull: the persisted `ClientGroup` and `Client` rows
plus the domain state `σ` the pluggable handler diffs against. -/
structure PullStore (σ : Type) where
  groups : List ClientGroup
  clients : List Client
  domain : σ
deriving DecidableEq, Repr

/-- Failure modes of a pull (spec §4.2, §4.4 and §7): unknown client group,
group registered under a different profile, or a handler diff failure. -/
inductive PullError where
  | unknownClientGroup
  | authMismatch
  | handlerFailed (msg : String)
deriving DecidableEq, Repr

/-- Result of a successful pull (spec §4.4): the new cookie, the
handler-computed patch, and the current `LastMutationID` of every client in
the group. -/
structure PullResult where
  cookie : String
  patch : String
  lastMutationIDChanges : List (String × Nat)
deriving DecidableEq, Repr

/-- The pluggable pull capability `ComputePull(tx, ClientInfo, cookie) ->
(patch, newCookie, error)` of spec §4.5, over domain state `σ`. -/
abbrev ComputePull (σ : Type) : Type :=
  ClientInfo → String → σ → Except String (String × String)

/-- Modelled from the spec: the pull pipeline of §4.4, absent from
src/replicache.go (only its `PullHandler`/`PullRequest` declarations exist).
Resolve the client group via §4.2 without creating: an unknown group fails
with `UnknownClientGroup`, and a group that exists under a different profile
fails with `AuthMismatch`.  Then ask the handler for the patch and new cookie
since the client's cookie, and report the current `LastMutationID` of every
client in the group; no `Client`/`ClientGroup` row is mutated. -/
def handlePull {σ : Type} (computePull : ComputePull σ) (info : ClientInfo)
    (cookie : String) (st : PullStore σ) : Except PullError PullResult × PullStore σ :=
  match st.groups.find? (fun g => g.clientGroupID == info.clientGroupID) with
  | none => (Except.error PullError.unknownClientGroup, st)
  | some g =>
      if g.profileID ≠ info.profileID then
        (Except.error PullError.authMismatch, st)
      else
      match computePull info cookie st.domain with
      | Except.error msg => (Except.error (PullError.handlerFailed msg), st)
      | Except.ok pc =>
          let changes :=
            (st.clients.filter (fun c => c.clientGroupID == info.clientGroupID)).map
              (fun c => (c.clientID, c.lastMutationID))
          (Except.ok { cookie := pc.2, patch := pc.1, lastMutationIDChanges := changes }, st)

/-- A sample pull capability returning a fixed patch and cookie. -/
def computePull0 : ComputePull Nat := fun _ _ _ => Except.ok ("patch0", "ck1")

/-- A sample store: one group `g1` owning clients `c1` and `c2`. -/
def store0 : PullStore Nat :=
  { groups := [{ clientGroupID := "g1", profileID := "p1" }],
    clients := [{ clientID := "c1", clientGroupID := "g1", lastMutationID := 3 },
                { clientID := "c2", clientGroupID := "g1", lastMutationID := 7 }],
    domain := 0 }

/-- Claim C1: the push pipeline does not skip already-applied mutations.
`handlePush` keeps no `LastMutationID` bookkeeping and forwards the full
batch to the handler on every push, so the handler's apply capability is
invoked again with the very same mutation on a retried push, and with a
handler that applies every mutation it receives, pushing the batch twice
leaves domain state different from pushing it once (2 applications vs 1). -/
theorem handlePush_forwards_duplicate_mutation :
    (handlePush env0 countHandler info0
        [{ clientID := "c1", id := 1, name := "inc", args := "a1", timestamp := 0 }]
        0).db = 1 ∧
    (handlePush env0 countHandler info0
        [{ clientID := "c1", id := 1, name := "inc", args := "a1", timestamp := 0 }]
        (handlePush env0 countHandler info0
          [{ clientID := "c1", id := 1, name := "inc", args := "a1", timestamp := 0 }]
          0).db).db = 2 ∧
    Event.handlerCall 0
        { clientInfo := info0,
          mutations := [{ clientID := "c1", id := 1, name := "inc", args := "a1", timestamp := 0 }],
          tx := 0 } ∈
      (handlePush env0 countHandler info0
        [{ clientID := "c1", id := 1, name := "inc", args := "a1", timestamp := 0 }]
        1).events := by
  refine ⟨rfl, rfl, ?_⟩
  decide

/-- Claim C2: the push pipeline has no mutation-order gap detection.  For a
fresh client (a server that has recorded no mutation, so the expected next id
is 1), a batch containing only mutation id 2 is not rejected: `handlePush`
forwards it to the handler, returns nil and commits.  No `MutationOrderGap`
failure exists anywhere in the source. -/
theorem handlePush_accepts_gap_batch :
    (handlePush env0 acceptHandler info0
        [{ clientID := "c1", id := 2, name := "op", args := "a2", timestamp := 0 }]
        0).result = none ∧
    Event.commitTx 0 ∈
      (handlePush env0 acceptHandler info0
        [{ clientID := "c1", id := 2, name := "op", args := "a2", timestamp := 0 }]
        0).events := by
  exact ⟨rfl, by decide⟩

/-- Claim C4: the push pipeline performs no client resolution.  The trace of
a push is exactly begin, handler invocation, commit — the handler is invoked
immediately after `BeginTx` with the whole batch, with no resolution step for
any `ClientID` in between, and the push succeeds whatever client the batch
references (no `ClientGroupMismatch` failure exists in the source). -/
theorem handlePush_skips_client_resolution :
    (handlePush env0 acceptHandler info0
        [{ clientID := "c1", id := 1, name := "op", args := "a3", timestamp := 0 }]
        0).result = none ∧
    (handlePush env0 acceptHandler info0
        [{ clientID := "c1", id := 1, name := "op", args := "a3", timestamp := 0 }]
        0).events =
      [Event.beginTx 0 Isolation.serializable,
       Event.handlerCall 0
         { clientInfo := info0,
           mutations := [{ clientID := "c1", id := 1, name := "op", args := "a3", timestamp := 0 }],
           tx := 0 },
       Event.commitTx 0] := by
  exact ⟨rfl, rfl⟩

/-- Claim C3: when the handler returns an error, `handlePush` returns that
error, the committed database state is unchanged (the deferred rollback
discards every tentative effect of the batch, counter advancement and domain
changes alike), the transaction is rolled back, and no commit occurs. -/
theorem handlePush_handler_error_aborts {σ : Type} (env : TxEnv) (handler : Handler σ)
    (info : ClientInfo) (muts : List Mutation) (db : σ) (msg : String)
    (hb : env.beginFails = false)
    (he : handler { clientInfo := info, mutations := muts, tx := 0 } db = Except.error msg) :
    (handlePush env handler info muts db).result = some (PushError.handlerFailed msg) ∧
    (handlePush env handler info muts db).db = db ∧
    Event.rollbackTx 0 ∈ (handlePush env handler info muts db).events ∧
    Event.commitTx 0 ∉ (handlePush env handler info muts db).events := by
  simp [handlePush, hb, he]

/-- Witness for C3 at a concrete input: a handler that always fails. -/
theorem handlePush_handler_error_aborts_witness :
    env0.beginFails = false ∧
    errHandler { clientInfo := info0, mutations := [], tx := 0 } 0 = Except.error "boom" ∧
    ((handlePush env0 errHandler info0 [] 0).result = some (PushError.handlerFailed "boom") ∧
      (handlePush env0 errHandler info0 [] 0).db = 0 ∧
      Event.rollbackTx 0 ∈ (handlePush env0 errHandler info0 [] 0).events ∧
      Event.commitTx 0 ∉ (handlePush env0 errHandler info0 [] 0).events) :=
  ⟨rfl, rfl, handlePush_handler_error_aborts env0 errHandler info0 [] 0 "boom" rfl rfl⟩

/-- Claim C5: provided `BeginTx` succeeds, a push opens exactly one
transaction, that transaction is at serializable isolation, and every handler
invocation in the trace uses that same transaction handle (handle 0, the one
opened by the `BeginTx` event in the trace). -/
theorem handlePush_single_serializable_tx {σ : Type} (env : TxEnv) (handler : Handler σ)
    (info : ClientInfo) (muts : List Mutation) (db : σ)
    (hb : env.beginFails = false) :
    (handlePush env handler info muts db).events.countP isBeginEvent = 1 ∧
    beginsSerializable (handlePush env handler info muts db).events = true ∧
    handlerUsesTx 0 (handlePush env handler info muts db).events = true ∧
    Event.beginTx 0 Isolation.serializable ∈ (handlePush env handler info muts db).events := by
  simp only [handlePush, hb, Bool.false_eq_true, if_false]
  cases handler { clientInfo := info, mutations := muts, tx := 0 } db with
  | error msg =>
      refine ⟨rfl, rfl, rfl, by simp⟩
  | ok db2 =>
      cases hc : env.commitFails with
      | false => refine ⟨rfl, rfl, rfl, by simp⟩
      | true => refine ⟨rfl, rfl, rfl, by simp⟩

/-- Witness for C5 at a concrete input. -/
theorem handlePush_single_serializable_tx_witness :
    env0.beginFails = false ∧
    ((handlePush env0 acceptHandler info0 [] 0).events.countP isBeginEvent = 1 ∧
      beginsSerializable (handlePush env0 acceptHandler info0 [] 0).events = true ∧
      handlerUsesTx 0 (handlePush env0 acceptHandler info0 [] 0).events = true ∧
      Event.beginTx 0 Isolation.serializable ∈ (handlePush env0 acceptHandler info0 [] 0).events) :=
  ⟨rfl, handlePush_single_serializable_tx env0 acceptHandler info0 [] 0 rfl⟩

/-- Claim C6: the push endpoint writes no body; a decoded request whose
`pushVersion` is not 1 is rejected with status 500 before the push pipeline
runs (no events, database untouched); a decode failure also yields 500; and
when the version is 1, the endpoint answers 200 exactly when `handlePush`
returned nil and 500 otherwise. -/
theorem pushEndpoint_version_and_status {σ : Type} (env : TxEnv) (handler : Handler σ)
    (auth : String) (decoded : Option PushReq) (db : σ) :
    (pushEndpoint env handler auth decoded db).resp.body = "" ∧
    ((pushEndpoint env handler auth decoded db).resp.status = 200 ∨
      (pushEndpoint env handler auth decoded db).resp.status = 500) ∧
    (decoded = none → (pushEndpoint env handler auth decoded db).resp.status = 500) ∧
    (∀ req, decoded = some req → req.pushVersion ≠ 1 →
      (pushEndpoint env handler auth decoded db).resp.status = 500 ∧
      (pushEndpoint env handler auth decoded db).events = [] ∧
      (pushEndpoint env handler auth decoded db).db = db) ∧
    (∀ req, decoded = some req → req.pushVersion = 1 →
      ((handlePush env handler
          { auth := auth, clientGroupID := req.clientGroupID,
            profileID := req.profileID, schemaVersion := req.schemaVersion }
          req.mutations db).result = none →
        (pushEndpoint env handler auth decoded db).resp =
          { status := 200, body := "" }) ∧
      ((handlePush env handler
          { auth := auth, clientGroupID := req.clientGroupID,
            profileID := req.profileID, schemaVersion := req.schemaVersion }
          req.mutations db).result ≠ none →
        (pushEndpoint env handler auth decoded db).resp =
          { status := 500, body := "" })) := by
  cases decoded with
  | none => simp [pushEndpoint]
  | some req =>
      by_cases hv : req.pushVersion = 1
      · cases hr : (handlePush env handler
            { auth := auth, clientGroupID := req.clientGroupID,
              profileID := req.profileID, schemaVersion := req.schemaVersion }
            req.mutations db).result with
        | none => simp [pushEndpoint, hv, hr]
        | some e => simp [pushEndpoint, hv, hr]
      · simp [pushEndpoint, hv]

/-- Witness for C6 at a concrete input: a version-1 request accepted by the
handler yields the empty 200 response. -/
theorem pushEndpoint_version_and_status_witness :
    (pushEndpoint env0 acceptHandler "tok"
        (some { pushVersion := 1, clientGroupID := "g1", mutations := [],
                profileID := "p1", schemaVersion := "s1" }) 0).resp =
      { status := 200, body := "" } :=
  (((pushEndpoint_version_and_status env0 acceptHandler "tok"
      (some { pushVersion := 1, clientGroupID := "g1", mutations := [],
              profileID := "p1", schemaVersion := "s1" }) 0).2.2.2.2
    { pushVersion := 1, clientGroupID := "g1", mutations := [],
      profileID := "p1", schemaVersion := "s1" } rfl rfl).1) rfl

/-- Claim C10: a push request that fails to decode, or whose `pushVersion`
is not 1, is answered with status 500 while no transaction is opened, the
handler is never invoked, and the database state is untouched. -/
theorem pushEndpoint_malformed_no_effect {σ : Type} (env : TxEnv) (handler : Handler σ)
    (auth : String) (decoded : Option PushReq) (db : σ)
    (h : decodeRejected decoded = true) :
    (pushEndpoint env handler auth decoded db).resp.status = 500 ∧
    (pushEndpoint env handler auth decoded db).events = [] ∧
    (pushEndpoint env handler auth decoded db).events.countP isBeginEvent = 0 ∧
    (pushEndpoint env handler auth decoded db).events.countP isHandlerCallEvent = 0 ∧
    (pushEndpoint env handler auth decoded db).db = db := by
  cases decoded with
  | none => simp [pushEndpoint]
  | some req =>
      have hv : req.pushVersion ≠ 1 := by
        simpa [decodeRejected] using h
      simp [pushEndpoint, hv]

/-- Witness for C10 at a concrete input: an undecodable body. -/
theorem pushEndpoint_malformed_no_effect_witness :
    decodeRejected (none : Option PushReq) = true ∧
    ((pushEndpoint env0 acceptHandler "tok" none 0).resp.status = 500 ∧
      (pushEndpoint env0 acceptHandler "tok" none 0).events = [] ∧
      (pushEndpoint env0 acceptHandler "tok" none 0).events.countP isBeginEvent = 0 ∧
      (pushEndpoint env0 acceptHandler "tok" none 0).events.countP isHandlerCallEvent = 0 ∧
      (pushEndpoint env0 acceptHandler "tok" none 0).db = 0) :=
  ⟨rfl, pushEndpoint_malformed_no_effect env0 acceptHandler "tok" none 0 rfl⟩

/-- Claim C8: every handler invocation recorded in a push endpoint trace
carries the `Authorization` header value unchanged as the `Auth` field of the
`ClientInfo` of its `PushRequest`; and whenever the request decodes with
version 1 and `BeginTx` succeeds, the handler is indeed invoked with exactly
that `ClientInfo` (auth copied verbatim, untransformed and unvalidated). -/
theorem pushEndpoint_auth_passthrough {σ : Type} (env : TxEnv) (handler : Handler σ)
    (auth : String) (decoded : Option PushReq) (db : σ) :
    authForwarded auth (pushEndpoint env handler auth decoded db).events = true ∧
    (∀ req, decoded = some req → req.pushVersion = 1 → env.beginFails = false →
      Event.handlerCall 0
          { clientInfo :=
              { auth := auth, clientGroupID := req.clientGroupID,
                profileID := req.profileID, schemaVersion := req.schemaVersion },
            mutations := req.mutations, tx := 0 } ∈
        (pushEndpoint env handler auth decoded db).events) := by
  cases decoded with
  | none => simp [pushEndpoint, authForwarded]
  | some req =>
      by_cases hv : req.pushVersion = 1
      · cases hb : env.beginFails with
        | true =>
            constructor
            · simp [pushEndpoint, hv, handlePush, hb, authForwarded]
            · intro r hr h1 h2
              exact absurd h2 (by simp)
        | false =>
            cases hh : handler
                { clientInfo :=
                    { auth := auth, clientGroupID := req.clientGroupID,
                      profileID := req.profileID, schemaVersion := req.schemaVersion },
                  mutations := req.mutations, tx := 0 } db with
            | error msg =>
                constructor
                · simp [pushEndpoint, hv, handlePush, hb, hh, authForwarded]
                · intro r hr h1 h2
                  cases hr
                  simp [pushEndpoint, hv, handlePush, hb, hh]
            | ok db2 =>
                cases hc : env.commitFails with
                | true =>
                    constructor
                    · simp [pushEndpoint, hv, handlePush, hb, hc, hh, authForwarded]
                    · intro r hr h1 h2
                      cases hr
                      simp [pushEndpoint, hv, handlePush, hb, hc, hh]
                | false =>
                    constructor
                    · simp [pushEndpoint, hv, handlePush, hb, hc, hh, authForwarded]
                    · intro r hr h1 h2
                      cases hr
                      simp [pushEndpoint, hv, handlePush, hb, hc, hh]
      · constructor
        · simp [pushEndpoint, hv, authForwarded]
        · intro r hr h1 h2
          cases hr
          exact absurd h1 hv

/-- Witness for C8 at a concrete input. -/
theorem pushEndpoint_auth_passthrough_witness :
    authForwarded "secret-token"
        (pushEndpoint env0 countHandler "secret-token"
          (some { pushVersion := 1, clientGroupID := "g1", mutations := [],
                  profileID := "p1", schemaVersion := "s1" }) 0).events = true ∧
    Event.handlerCall 0
        { clientInfo :=
            { auth := "secret-token", clientGroupID := "g1",
              profileID := "p1", schemaVersion := "s1" },
          mutations := [], tx := 0 } ∈
      (pushEndpoint env0 countHandler "secret-token"
        (some { pushVersion := 1, clientGroupID := "g1", mutations := [],
                profileID := "p1", schemaVersion := "s1" }) 0).events :=
  ⟨(pushEndpoint_auth_passthrough env0 countHandler "secret-token"
      (some { pushVersion := 1, clientGroupID := "g1", mutations := [],
              profileID := "p1", schemaVersion := "s1" }) 0).1,
   (pushEndpoint_auth_passthrough env0 countHandler "secret-token"
      (some { pushVersion := 1, clientGroupID := "g1", mutations := [],
              profileID := "p1", schemaVersion := "s1" }) 0).2
     { pushVersion := 1, clientGroupID := "g1", mutations := [],
       profileID := "p1", schemaVersion := "s1" } rfl rfl rfl⟩

/-- Claim C9: the push pipeline never reads the advisory `Timestamp`.  For
two batches identical up to the timestamps of their mutations, and any
handler that does not distinguish timestamp-equal requests, `handlePush`
returns the same result, the same committed database state, and
timestamp-erased-equal traces (the same decisions and the same outcome);
in particular no ordering decision ever depends on `Timestamp`. -/
theorem handlePush_timestamp_noninterference {σ : Type} (env : TxEnv)
    (handler : Handler σ) (hinv : tsInsensitive handler) (info : ClientInfo)
    (muts1 muts2 : List Mutation) (db : σ)
    (hts : muts1.map eraseTs = muts2.map eraseTs) :
    (handlePush env handler info muts1 db).result =
      (handlePush env handler info muts2 db).result ∧
    (handlePush env handler info muts1 db).db =
      (handlePush env handler info muts2 db).db ∧
    (handlePush env handler info muts1 db).events.map eraseEvent =
      (handlePush env handler info muts2 db).events.map eraseEvent := by
  have hreq : erasePushRequest { clientInfo := info, mutations := muts1, tx := 0 } =
      erasePushRequest { clientInfo := info, mutations := muts2, tx := 0 } := by
    simp [erasePushRequest, hts]
  have hh := hinv { clientInfo := info, mutations := muts1, tx := 0 }
    { clientInfo := info, mutations := muts2, tx := 0 } db hreq
  cases hb : env.beginFails with
  | true => simp [handlePush, hb]
  | false =>
      cases h2 : handler { clientInfo := info, mutations := muts2, tx := 0 } db with
      | error msg =>
          simp [handlePush, hb, hh, h2, eraseEvent, hreq]
      | ok db2 =>
          cases hc : env.commitFails with
          | true => simp [handlePush, hb, hh, h2, hc, eraseEvent, hreq]
          | false => simp [handlePush, hb, hh, h2, hc, eraseEvent, hreq]

/-- Witness for C9 at a concrete input: two single-mutation batches that
differ only in their timestamps, pushed through an insensitive handler. -/
theorem handlePush_timestamp_noninterference_witness :
    (handlePush env0 acceptHandler info0
        [{ clientID := "c1", id := 1, name := "op", args := "a4", timestamp := 5 }] 0).result =
      (handlePush env0 acceptHandler info0
        [{ clientID := "c1", id := 1, name := "op", args := "a4", timestamp := 9 }] 0).result ∧
    (handlePush env0 acceptHandler info0
        [{ clientID := "c1", id := 1, name := "op", args := "a4", timestamp := 5 }] 0).db =
      (handlePush env0 acceptHandler info0
        [{ clientID := "c1", id := 1, name := "op", args := "a4", timestamp := 9 }] 0).db ∧
    (handlePush env0 acceptHandler info0
        [{ clientID := "c1", id := 1, name := "op", args := "a4", timestamp := 5 }] 0).events.map
        eraseEvent =
      (handlePush env0 acceptHandler info0
        [{ clientID := "c1", id := 1, name := "op", args := "a4", timestamp := 9 }] 0).events.map
        eraseEvent :=
  handlePush_timestamp_noninterference env0 acceptHandler (fun _ _ _ _ => rfl) info0
    [{ clientID := "c1", id := 1, name := "op", args := "a4", timestamp := 5 }]
    [{ clientID := "c1", id := 1, name := "op", args := "a4", timestamp := 9 }] 0 (by decide)

/-- Claim C7: a pull never mutates the `Client`/`ClientGroup` rows (the
store comes back unchanged); a pull whose client group is unknown fails with
`UnknownClientGroup`; a pull whose group exists under a different profile
fails with `AuthMismatch` (§4.2 resolution); and when the group resolves
under the request's profile and the handler computes a patch and new
cookie, the pull returns exactly that cookie and patch together with the
current `LastMutationID` of every client of the group. -/
theorem handlePull_contract {σ : Type} (computePull : ComputePull σ)
    (info : ClientInfo) (cookie : String) (st : PullStore σ) :
    (handlePull computePull info cookie st).2 = st ∧
    (st.groups.find? (fun g => g.clientGroupID == info.clientGroupID) = none →
      (handlePull computePull info cookie st).1 =
        Except.error PullError.unknownClientGroup) ∧
    (∀ g, st.groups.find? (fun g2 => g2.clientGroupID == info.clientGroupID) = some g →
      g.profileID ≠ info.profileID →
      (handlePull computePull info cookie st).1 =
        Except.error PullError.authMismatch) ∧
    (∀ g patch newCookie,
      st.groups.find? (fun g2 => g2.clientGroupID == info.clientGroupID) = some g →
      g.profileID = info.profileID →
      computePull info cookie st.domain = Except.ok (patch, newCookie) →
      (handlePull computePull info cookie st).1 =
        Except.ok
          { cookie := newCookie, patch := patch,
            lastMutationIDChanges :=
              (st.clients.filter (fun c => c.clientGroupID == info.clientGroupID)).map
                (fun c => (c.clientID, c.lastMutationID)) } ∧
      (∀ c, c ∈ st.clients → c.clientGroupID = info.clientGroupID →
        (c.clientID, c.lastMutationID) ∈
          (st.clients.filter (fun c2 => c2.clientGroupID == info.clientGroupID)).map
            (fun c2 => (c2.clientID, c2.lastMutationID)))) := by
  cases hg : st.groups.find? (fun g => g.clientGroupID == info.clientGroupID) with
  | none =>
      refine ⟨by simp [handlePull, hg], fun _ => by simp [handlePull, hg], ?_, ?_⟩
      · intro g hsome
        exact absurd hsome (by simp)
      · intro g patch newCookie hsome
        exact absurd hsome (by simp)
  | some g =>
      by_cases hp : g.profileID = info.profileID
      · refine ⟨?_, ?_, ?_, ?_⟩
        · cases hcp : computePull info cookie st.domain with
          | error msg => simp [handlePull, hg, hp, hcp]
          | ok pc => simp [handlePull, hg, hp, hcp]
        · intro hnone
          exact absurd hnone (by simp)
        · intro g2 hsome hne
          obtain rfl := Option.some.inj hsome
          exact absurd hp hne
        · intro g2 patch newCookie hsome hpe hcp
          obtain rfl := Option.some.inj hsome
          constructor
          · simp [handlePull, hg, hp, hcp]
          · intro c hc hgrp
            exact List.mem_map.mpr ⟨c, List.mem_filter.mpr ⟨hc, by simp [hgrp]⟩, rfl⟩
      · refine ⟨by simp [handlePull, hg, hp], ?_, ?_, ?_⟩
        · intro hnone
          exact absurd hnone (by simp)
        · intro g2 hsome hne
          simp [handlePull, hg, hp]
        · intro g2 patch newCookie hsome hpe hcp
          obtain rfl := Option.some.inj hsome
          exact absurd hpe hp

/-- Witness for C7 at a concrete input: group `g1` under profile `p1` (the
requesting profile) with two clients. -/
theorem handlePull_contract_witness :
    (handlePull computePull0 info0 "ck0" store0).2 = store0 ∧
    ((handlePull computePull0 info0 "ck0" store0).1 =
        Except.ok
          { cookie := "ck1", patch := "patch0",
            lastMutationIDChanges :=
              (store0.clients.filter (fun c => c.clientGroupID == info0.clientGroupID)).map
                (fun c => (c.clientID, c.lastMutationID)) } ∧
      (∀ c, c ∈ store0.clients → c.clientGroupID = info0.clientGroupID →
        (c.clientID, c.lastMutationID) ∈
          (store0.clients.filter (fun c2 => c2.clientGroupID == info0.clientGroupID)).map
            (fun c2 => (c2.clientID, c2.lastMutationID)))) :=
  ⟨(handlePull_contract computePull0 info0 "ck0" store0).1,
   (handlePull_contract computePull0 info0 "ck0" store0).2.2.2
     { clientGroupID := "g1", profileID := "p1" } "patch0" "ck1" (by decide) rfl rfl⟩
